import Mathlib

/-!
Shallow embedding of the harbinger TCP header codec.

Sources embedded here:
- `src/flags.rs`   — the `TcpFlags` bitmask and its `Display` implementation.
- `src/tcp.rs`     — the `Tcp` header struct, `to_bytes`, `calculate_checksum`,
                     `TryFrom<&[u8]> for Tcp`, and `TcpBuilder`.
- `src/tcp_headers.rs` — the variant `TcpHeader` codec (`from_bytes`, `to_bytes`).

Machine integers are modelled as `Nat` with explicit `% 2^w` where the Rust
code truncates (the `as u16` cast and the wrapping `u32` accumulator).
Byte buffers are `List Nat`; theorems that need the `u8`/`u16`/`u32` ranges
carry them as explicit hypotheses.
-/

namespace Harbinger

/-- Big-endian byte pair of a 16-bit value (`u16::to_be_bytes`).  For an
argument below `2^16` the leading `% 256` is the identity. -/
def u16be (n : Nat) : List Nat := [n / 256 % 256, n % 256]

/-- Big-endian bytes of a 32-bit value (`u32::to_be_bytes`). -/
def u32be (n : Nat) : List Nat :=
  [n / 16777216 % 256, n / 65536 % 256, n / 256 % 256, n % 256]

/-- Reading `u16::from_be_bytes([a, b])`. -/
def u16beRead (a b : Nat) : Nat := a * 256 + b

/-- Reading `u32::from_be_bytes([a, b, c, d])`. -/
def u32beRead (a b c d : Nat) : Nat := a * 16777216 + b * 65536 + c * 256 + d

/-- Model of `std::net::Ipv4Addr`: four octets, as returned by `octets()`. -/
structure Ipv4Addr where
  o0 : Nat
  o1 : Nat
  o2 : Nat
  o3 : Nat
deriving DecidableEq

namespace TcpFlags

/-- Constant `TcpFlags::UNINT` (src/flags.rs line 8). -/
def UNINT : Nat := 0x00
/-- Constant `TcpFlags::FIN`. -/
def FIN : Nat := 0x01
/-- Constant `TcpFlags::SYN`. -/
def SYN : Nat := 0x02
/-- Constant `TcpFlags::RST`. -/
def RST : Nat := 0x04
/-- Constant `TcpFlags::PSH`. -/
def PSH : Nat := 0x08
/-- Constant `TcpFlags::ACK`. -/
def ACK : Nat := 0x10
/-- Constant `TcpFlags::URG`. -/
def URG : Nat := 0x20
/-- Constant `TcpFlags::ECE`. -/
def ECE : Nat := 0x40
/-- Constant `TcpFlags::CWR`. -/
def CWR : Nat := 0x80

/-- The `bitflags` `contains` test: `self.bits() & other.bits() == other.bits()`. -/
def contains (b m : Nat) : Bool := b &&& m == m

/-- The `bitflags` `from_bits` check: succeeds iff the value survives truncation to the
union of all named bits.  All eight bits of the `u8` are named in
src/flags.rs, so the retained mask is `0xFF` and every `u8` value passes;
over `Nat` the check reads `b &&& 0xFF == b`. -/
def from_bits (b : Nat) : Option Nat :=
  if b &&& 0xFF == b then some b else none

/-- Rendering, `impl fmt::Display for TcpFlags` (src/flags.rs lines 20-55): push the name
of each set flag in source order FIN, SYN, RST, PSH, ACK, URG, ECE, CWR, then
either `"UNINT {bits}"` when the list is empty or `"{joined} {bits}"` with
separator `" | "`. -/
def render (b : Nat) : String :=
  let flags : List String :=
    (if contains b FIN then ["FIN"] else []) ++
    (if contains b SYN then ["SYN"] else []) ++
    (if contains b RST then ["RST"] else []) ++
    (if contains b PSH then ["PSH"] else []) ++
    (if contains b ACK then ["ACK"] else []) ++
    (if contains b URG then ["URG"] else []) ++
    (if contains b ECE then ["ECE"] else []) ++
    (if contains b CWR then ["CWR"] else [])
  if flags.isEmpty then "UNINT " ++ toString b
  else String.intercalate " | " flags ++ " " ++ toString b

end TcpFlags

/-- The eight flag bits with their names in the canonical render order.
Spec-side definition used to state the rendering claim. -/
def canonicalFlagBits : List (Nat × String) :=
  [(0x01, "FIN"), (0x02, "SYN"), (0x04, "RST"), (0x08, "PSH"),
   (0x10, "ACK"), (0x20, "URG"), (0x40, "ECE"), (0x80, "CWR")]

/-- Spec-side: the names of exactly the set bits of `b`, in canonical order. -/
def setFlagNames (b : Nat) : List String :=
  (canonicalFlagBits.filter fun p => b &&& p.1 == p.1).map Prod.snd

/-- The `struct Tcp` (src/tcp.rs lines 7-16); the `flags: TcpFlags` field is
stored as its underlying bits byte. -/
structure Tcp where
  source_port : Nat
  dest_port : Nat
  seq_num : Nat
  ack_num : Nat
  flags : Nat
  window_size : Nat
  checksum : Nat
deriving DecidableEq

/-- Field ranges guaranteed by the Rust types (`u16`/`u32`/`u8`). -/
abbrev Tcp.wellFormed (h : Tcp) : Prop :=
  h.source_port < 65536 ∧ h.dest_port < 65536 ∧
  h.seq_num < 4294967296 ∧ h.ack_num < 4294967296 ∧
  h.flags < 256 ∧ h.window_size < 65536 ∧ h.checksum < 65536

/-- Serializer `Tcp::to_bytes` (src/tcp.rs lines 34-46): the 20-byte buffer, written
slice by slice in source order; byte 12 is `(5 << 4) | 0`, bytes 18..20 are
`0u16.to_be_bytes()`. -/
def Tcp.to_bytes (h : Tcp) : List Nat :=
  u16be h.source_port ++ u16be h.dest_port ++ u32be h.seq_num ++ u32be h.ack_num ++
    [(5 <<< 4) ||| 0, h.flags] ++ u16be h.window_size ++ u16be h.checksum ++ u16be 0

/-- One pass of `chunks(2)` summation: exact pairs contribute
`u16::from_be_bytes(chunk)`, a final lone byte contributes
`(chunk[0] as u16) as u32`, i.e. the byte itself in the LOW position
(src/tcp.rs lines 90-96).  The header loop (lines 85-87) feeds this the
20-byte (even-length) buffer, so its lone-byte case is never reached there. -/
def words16 : List Nat → Nat
  | [] => 0
  | [b] => b
  | a :: b :: rest => u16beRead a b + words16 rest

/-- The carry-folding `while` loop (src/tcp.rs lines 105-109):
`while sum >> 16 > 0 { sum = (sum & 0xFFFF) + (sum >> 16) }`.
Total by well-founded recursion: the sum strictly decreases. -/
def foldCarry (s : Nat) : Nat :=
  if h : 0 < s / 65536 then foldCarry (s % 65536 + s / 65536) else s
decreasing_by
  omega

/-- Final complement `!(sum as u16)`: truncate to 16 bits, then bitwise NOT, i.e. XOR with
`0xFFFF`. -/
def not16 (x : Nat) : Nat := 65535 ^^^ (x % 65536)

/-- Pseudo-header contribution (src/tcp.rs lines 71-82): the two big-endian
halves of each address, the protocol constant 6, and the transport-length
term. -/
def pseudoHeaderSum (src dst : Ipv4Addr) (tcpLength : Nat) : Nat :=
  u16beRead src.o0 src.o1 + u16beRead src.o2 src.o3 +
    u16beRead dst.o0 dst.o1 + u16beRead dst.o2 dst.o3 + 6 + tcpLength

/-- Checksum engine `Tcp::calculate_checksum` (src/tcp.rs lines 66-112).  The transport
length is `(self.to_bytes().len() + payload.len()) as u16`, a truncating
cast, modelled by `% 65536`.  The `u32` accumulator wraps, modelled by a
single `% 2^32` over the total (stepwise wrapping addition of the same terms
gives the same value). -/
def Tcp.calculate_checksum (h : Tcp) (src dst : Ipv4Addr) (payload : List Nat) : Nat :=
  not16 (foldCarry
    ((pseudoHeaderSum src dst ((h.to_bytes.length + payload.length) % 65536) +
        words16 h.to_bytes + words16 payload) % 4294967296))

/-- Spec-side: the same checksum computation but with the transport-length
term supplied explicitly, used to state the truncation and padding claims. -/
def checksumWith (h : Tcp) (src dst : Ipv4Addr) (tcpLength : Nat) (payload : List Nat) : Nat :=
  not16 (foldCarry
    ((pseudoHeaderSum src dst tcpLength + words16 h.to_bytes + words16 payload) % 4294967296))

/-- Outcome of `Tcp::try_from`: the `Result` value, or a Rust panic. -/
inductive DecodeResult where
  | ok (t : Tcp)
  | err (e : String)
  | panicked (msg : String)
deriving DecidableEq

/-- Projection to the successfully decoded header, if any. -/
def DecodeResult.toOption : DecodeResult → Option Tcp
  | .ok t => some t
  | _ => none

/-- Decoder `impl TryFrom<&[u8]> for Tcp` (src/tcp.rs lines 157-178).  For fewer than
20 bytes the code PANICS (with the length in the message) instead of
returning `Err`; otherwise it reads the fields at fixed offsets, unwrapping
`TcpFlags::from_bits(bytes[13])` (a panic if `from_bits` failed, which cannot
happen for a `u8`).  In-range indices are read with `getD _ 0`; they are all
below 20, covered by the length guard. -/
def Tcp.try_from (bytes : List Nat) : DecodeResult :=
  if bytes.length < 20 then
    .panicked ("TCP Header must be at least 20 bytes, received: " ++ toString bytes.length)
  else
    match TcpFlags.from_bits (bytes.getD 13 0) with
    | none => .panicked "called Option.unwrap on a None value"
    | some fl =>
      .ok { source_port := u16beRead (bytes.getD 0 0) (bytes.getD 1 0)
            dest_port := u16beRead (bytes.getD 2 0) (bytes.getD 3 0)
            seq_num := u32beRead (bytes.getD 4 0) (bytes.getD 5 0) (bytes.getD 6 0) (bytes.getD 7 0)
            ack_num := u32beRead (bytes.getD 8 0) (bytes.getD 9 0) (bytes.getD 10 0) (bytes.getD 11 0)
            flags := fl
            window_size := u16beRead (bytes.getD 14 0) (bytes.getD 15 0)
            checksum := u16beRead (bytes.getD 16 0) (bytes.getD 17 0) }

/-- The `struct TcpHeader` (src/tcp_headers.rs lines 5-18); here `flags` is a raw
`u8`. -/
structure TcpHeader where
  source_port : Nat
  dest_port : Nat
  seq_num : Nat
  ack_num : Nat
  flags : Nat
  window_size : Nat
  checksum : Nat
deriving DecidableEq

/-- Decoder `TcpHeader::from_bytes` (src/tcp_headers.rs lines 21-36): `None` for
fewer than 20 bytes, otherwise the fields at the same fixed offsets (flags
from offset 13). -/
def TcpHeader.from_bytes (bytes : List Nat) : Option TcpHeader :=
  if bytes.length < 20 then none
  else
    some { source_port := u16beRead (bytes.getD 0 0) (bytes.getD 1 0)
           dest_port := u16beRead (bytes.getD 2 0) (bytes.getD 3 0)
           seq_num := u32beRead (bytes.getD 4 0) (bytes.getD 5 0) (bytes.getD 6 0) (bytes.getD 7 0)
           ack_num := u32beRead (bytes.getD 8 0) (bytes.getD 9 0) (bytes.getD 10 0) (bytes.getD 11 0)
           flags := bytes.getD 13 0
           window_size := u16beRead (bytes.getD 14 0) (bytes.getD 15 0)
           checksum := u16beRead (bytes.getD 16 0) (bytes.getD 17 0) }

/-- Serializer `TcpHeader::to_bytes` (src/tcp_headers.rs lines 38-51): identical layout
to `Tcp::to_bytes`. -/
def TcpHeader.to_bytes (h : TcpHeader) : List Nat :=
  u16be h.source_port ++ u16be h.dest_port ++ u32be h.seq_num ++ u32be h.ack_num ++
    [(5 <<< 4) ||| 0, h.flags] ++ u16be h.window_size ++ u16be h.checksum ++ u16be 0

/-- Field-for-field conversion between the two header structs (they carry the
same seven fields); used to state the codec-agreement claim. -/
def TcpHeader.toTcp (h : TcpHeader) : Tcp :=
  { source_port := h.source_port, dest_port := h.dest_port, seq_num := h.seq_num
    ack_num := h.ack_num, flags := h.flags, window_size := h.window_size
    checksum := h.checksum }

/-- The `struct TcpBuilder` (src/tcp.rs lines 180-187). -/
structure TcpBuilder where
  source_port : Nat
  dest_port : Nat
  seq_num : Nat
  ack_num : Nat
  flags : Nat
  window_size : Nat
deriving DecidableEq

/-- Constructor `TcpBuilder::new` (src/tcp.rs lines 190-199): ports/seq/ack 0, flags
`UNINT`, window size 1024. -/
def TcpBuilder.new : TcpBuilder :=
  { source_port := 0, dest_port := 0, seq_num := 0, ack_num := 0
    flags := TcpFlags.UNINT, window_size := 1024 }

/-- Setter `TcpBuilder::source_port`. -/
def TcpBuilder.source_port_set (b : TcpBuilder) (port : Nat) : TcpBuilder :=
  { b with source_port := port }

/-- Setter `TcpBuilder::dest_port`. -/
def TcpBuilder.dest_port_set (b : TcpBuilder) (port : Nat) : TcpBuilder :=
  { b with dest_port := port }

/-- Setter `TcpBuilder::seq_num`. -/
def TcpBuilder.seq_num_set (b : TcpBuilder) (seq : Nat) : TcpBuilder :=
  { b with seq_num := seq }

/-- Setter `TcpBuilder::ack_num`. -/
def TcpBuilder.ack_num_set (b : TcpBuilder) (ack : Nat) : TcpBuilder :=
  { b with ack_num := ack }

/-- Setter `TcpBuilder::flags`. -/
def TcpBuilder.flags_set (b : TcpBuilder) (flags : Nat) : TcpBuilder :=
  { b with flags := flags }

/-- Setter `TcpBuilder::window_size`. -/
def TcpBuilder.window_size_set (b : TcpBuilder) (size : Nat) : TcpBuilder :=
  { b with window_size := size }

/-- Terminal call `TcpBuilder::build` (src/tcp.rs lines 231-247): assemble the header with
`checksum = 0`, run `calculate_checksum`, store the result. -/
def TcpBuilder.build (b : TcpBuilder) (src dst : Ipv4Addr) (payload : List Nat) : Tcp :=
  let tcp : Tcp :=
    { source_port := b.source_port, dest_port := b.dest_port, seq_num := b.seq_num
      ack_num := b.ack_num, flags := b.flags, checksum := 0
      window_size := b.window_size }
  { tcp with checksum := Tcp.calculate_checksum tcp src dst payload }

/-- One fluent setter invocation on a builder. -/
inductive BuilderCall where
  | source_port (v : Nat)
  | dest_port (v : Nat)
  | seq_num (v : Nat)
  | ack_num (v : Nat)
  | flags (v : Nat)
  | window_size (v : Nat)

/-- Apply one setter call. -/
def applyCall (b : TcpBuilder) : BuilderCall → TcpBuilder
  | .source_port v => b.source_port_set v
  | .dest_port v => b.dest_port_set v
  | .seq_num v => b.seq_num_set v
  | .ack_num v => b.ack_num_set v
  | .flags v => b.flags_set v
  | .window_size v => b.window_size_set v

/-- The builder state after `TcpBuilder::new()` followed by a sequence of
setter calls. -/
def applyCalls (calls : List BuilderCall) : TcpBuilder :=
  calls.foldl applyCall TcpBuilder.new

/-- The 20-byte known test vector from §8 of the spec and the repository's
tests. -/
def knownVector : List Nat :=
  [0xC0, 0xA8, 0x1F, 0x90, 0x12, 0x34, 0x56, 0x78,
   0x87, 0x65, 0x43, 0x21, 0x50, 0x18, 0x00, 0xFF,
   0xF0, 0x0D, 0x00, 0x00]

/-- An all-zero header, used as a concrete checksum input. -/
def zeroHeader : Tcp :=
  { source_port := 0, dest_port := 0, seq_num := 0, ack_num := 0
    flags := 0, window_size := 0, checksum := 0 }

/-- The address `0.0.0.0`, used as a concrete checksum input. -/
def zeroAddr : Ipv4Addr := { o0 := 0, o1 := 0, o2 := 0, o3 := 0 }

/-! Helper lemmas shared by several claim proofs. -/

/-- Masking with `0xFF` is the identity on byte values. -/
theorem and_255_of_lt (b : Nat) (hb : b < 256) : b &&& 255 = b := by
  have := Nat.and_pow_two_sub_one_of_lt_two_pow (n := 8) hb
  simpa using this

/-- The serialized header is always exactly 20 bytes. -/
theorem to_bytes_length (h : Tcp) : (Tcp.to_bytes h).length = 20 := by
  simp [Tcp.to_bytes, u16be, u32be]

/-- The carry-folding loop is the identity on values already below `2^16`. -/
theorem foldCarry_eq_self {s : Nat} (h : s < 65536) : foldCarry s = s := by
  rw [foldCarry]
  have h0 : s / 65536 = 0 := Nat.div_eq_of_lt h
  simp [h0]

/-- The carry-folding loop always lands below `2^16`. -/
theorem foldCarry_lt (s : Nat) : foldCarry s < 65536 := by
  induction s using Nat.strong_induction_on with
  | _ s ih =>
    rw [foldCarry]
    split
    · next h => exact ih _ (by omega)
    · next h => omega

/-- An even-length run of zero bytes contributes nothing to the word sum. -/
theorem words16_replicate_zero (k : Nat) : words16 (List.replicate (2 * k) 0) = 0 := by
  induction k with
  | zero => rfl
  | succ n ih =>
    have h2 : 2 * (n + 1) = (2 * n) + 1 + 1 := by omega
    rw [h2, List.replicate_succ, List.replicate_succ, words16]
    simp [u16beRead, ih]

/-- C1: decoding the 20-byte buffer produced by serializing any constructible
header `h` yields `Ok` of a header with exactly the same seven fields
(source_port, dest_port, seq_num, ack_num, flags, window_size, checksum);
the fixed data-offset, reserved and urgent-pointer bytes are constants not
represented in the field set. -/
theorem tcp_roundtrip (h : Tcp) (hw : h.wellFormed) :
    Tcp.try_from (Tcp.to_bytes h) = .ok h := by
  obtain ⟨sp, dp, sq, ak, fl, ws, ck⟩ := h
  obtain ⟨h1, h2, h3, h4, h5, h6, h7⟩ := hw
  simp only at h1 h2 h3 h4 h5 h6 h7
  have hfl : fl &&& 255 = fl := and_255_of_lt fl h5
  simp [Tcp.try_from, Tcp.to_bytes, u16be, u32be, TcpFlags.from_bits, hfl,
        u16beRead, u32beRead, Tcp.mk.injEq]
  omega

/-- Witness for C1 at the sample header from the repository's tests. -/
theorem tcp_roundtrip_witness :
    Tcp.wellFormed
      { source_port := 49320, dest_port := 8080, seq_num := 305419896,
        ack_num := 2271560481, flags := 18, window_size := 255, checksum := 61453 } ∧
    Tcp.try_from (Tcp.to_bytes
      { source_port := 49320, dest_port := 8080, seq_num := 305419896,
        ack_num := 2271560481, flags := 18, window_size := 255, checksum := 61453 }) =
      .ok { source_port := 49320, dest_port := 8080, seq_num := 305419896,
            ack_num := 2271560481, flags := 18, window_size := 255, checksum := 61453 } :=
  ⟨by decide, tcp_roundtrip _ (by decide)⟩

/-- C2 (code bug): the payload loop adds a final lone byte as the LOW byte of
a word (`sum += (chunk[0] as u16) as u32`, value 1 for payload `[1]`), not as
the high byte of a zero-padded word (value 256 for payload `[1, 0]`), so the
checksum of an odd payload differs from the checksum obtained by manually
zero-padding it while keeping the original transport length: 45027 vs 44772
at the concrete input below.  This contradicts the function's own doc comment
("padding the last octet with zeros on its right"). -/
theorem odd_payload_lone_byte_low :
    words16 [1] = 1 ∧ words16 [1, 0] = 256 ∧
    Tcp.calculate_checksum zeroHeader zeroAddr zeroAddr [1] = 45027 ∧
    checksumWith zeroHeader zeroAddr zeroAddr 21 [1, 0] = 44772 := by
  refine ⟨by decide, by decide, ?_, ?_⟩ <;>
    simp [Tcp.calculate_checksum, checksumWith, Tcp.to_bytes, u16be, u32be, words16,
          u16beRead, pseudoHeaderSum, not16, zeroHeader, zeroAddr, foldCarry_eq_self,
          Nat.shiftLeft_eq]

/-- C3 (counterexample): on a 19-byte input, `Tcp::try_from` panics (with the
length in the message); it does not return a `MalformedHeader` error value. -/
theorem short_input_panics_cx :
    Tcp.try_from (List.replicate 19 0) =
      .panicked ("TCP Header must be at least 20 bytes, received: " ++ toString (19 : Nat)) := by
  decide

/-- C3 (amended): for every input shorter than 20 bytes, `Tcp::try_from`
panics with a message reporting the received length — matching its documented
Panics section — while the variant decoder `TcpHeader::from_bytes` returns
`None`; neither path yields a partially populated header. -/
theorem short_input_behavior (bytes : List Nat) (hlen : bytes.length < 20) :
    Tcp.try_from bytes =
      .panicked ("TCP Header must be at least 20 bytes, received: " ++ toString bytes.length) ∧
    TcpHeader.from_bytes bytes = none := by
  constructor
  · rw [Tcp.try_from]
    simp [hlen]
  · rw [TcpHeader.from_bytes]
    simp [hlen]

/-- Witness for C3 at a concrete 19-byte input. -/
theorem short_input_behavior_witness :
    (List.replicate 19 (0 : Nat)).length < 20 ∧
    (Tcp.try_from (List.replicate 19 0) =
      .panicked ("TCP Header must be at least 20 bytes, received: " ++
        toString (List.replicate 19 (0 : Nat)).length) ∧
     TcpHeader.from_bytes (List.replicate 19 0) = none) :=
  ⟨by decide, short_input_behavior (List.replicate 19 0) (by decide)⟩

/-- C4 (counterexample): the known vector decodes with flags byte
`0x18 = 24`, and `24` does NOT contain SYN (`0x02`); the claim's assertion
that the decoded flags contain SYN is false. -/
theorem known_vector_no_syn_cx :
    Tcp.try_from knownVector =
      .ok { source_port := 49320, dest_port := 8080, seq_num := 305419896,
            ack_num := 2271560481, flags := 24, window_size := 255, checksum := 61453 } ∧
    TcpFlags.contains 24 TcpFlags.SYN = false := by
  decide

/-- C4 (amended): decoding the 20-byte known vector succeeds with
source_port 49320, dest_port 8080, seq_num 305419896, ack_num 2271560481,
window_size 255 and checksum 61453, and a flags value (`0x18`) that contains
ACK (`0x10`) and PSH (`0x08`) but not SYN (`0x02`). -/
theorem known_vector_decode :
    Tcp.try_from knownVector =
      .ok { source_port := 49320, dest_port := 8080, seq_num := 305419896,
            ack_num := 2271560481, flags := 24, window_size := 255, checksum := 61453 } ∧
    TcpFlags.contains 24 TcpFlags.ACK = true ∧
    TcpFlags.contains 24 TcpFlags.PSH = true ∧
    TcpFlags.contains 24 TcpFlags.SYN = false := by
  decide

/-- C5 (counterexample): with an all-zero header and a 65516-byte payload
(total length exactly 65536), the checksum operation does not fail: it
returns the value 45049, which is precisely the checksum computed with the
transport-length term silently truncated to `65536 % 65536 = 0`. -/
theorem checksum_truncation_cx :
    Tcp.calculate_checksum zeroHeader zeroAddr zeroAddr (List.replicate 65516 0) = 45049 ∧
    Tcp.calculate_checksum zeroHeader zeroAddr zeroAddr (List.replicate 65516 0) =
      checksumWith zeroHeader zeroAddr zeroAddr 0 (List.replicate 65516 0) := by
  have hw : words16 (List.replicate 65516 (0 : Nat)) = 0 := by
    have h2 : (65516 : Nat) = 2 * 32758 := by norm_num
    rw [h2]
    exact words16_replicate_zero 32758
  have hl : (List.replicate 65516 (0 : Nat)).length = 65516 := List.length_replicate 65516 0
  generalize hg : List.replicate 65516 (0 : Nat) = p at hw hl ⊢
  constructor
  · rw [Tcp.calculate_checksum, hw, hl, to_bytes_length]
    norm_num [Tcp.to_bytes, u16be, u32be, words16, u16beRead, zeroHeader, zeroAddr,
              pseudoHeaderSum, Nat.shiftLeft_eq, foldCarry_eq_self, not16]
    decide
  · rw [Tcp.calculate_checksum, checksumWith, hw, hl, to_bytes_length]

/-- C5 (amended): for every header, address pair and payload whose combined
length (20-byte header plus payload) is at or above 65536, the checksum
operation does not fail with a `LengthOverflow` error: no such error exists
in the code, and the computation proceeds with the transport-length
pseudo-header term silently truncated to `(20 + payload_len) mod 2^16`. -/
theorem checksum_truncates_length (h : Tcp) (src dst : Ipv4Addr) (payload : List Nat)
    (_hlen : 65536 ≤ 20 + payload.length) :
    Tcp.calculate_checksum h src dst payload =
      checksumWith h src dst ((20 + payload.length) % 65536) payload := by
  simp [Tcp.calculate_checksum, checksumWith, to_bytes_length]

/-- Witness for C5 at the 65516-byte zero payload. -/
theorem checksum_truncates_length_witness :
    65536 ≤ 20 + (List.replicate 65516 (0 : Nat)).length ∧
    Tcp.calculate_checksum zeroHeader zeroAddr zeroAddr (List.replicate 65516 0) =
      checksumWith zeroHeader zeroAddr zeroAddr
        ((20 + (List.replicate 65516 (0 : Nat)).length) % 65536) (List.replicate 65516 0) :=
  ⟨by rw [List.length_replicate], checksum_truncates_length zeroHeader zeroAddr zeroAddr _
    (by rw [List.length_replicate])⟩

/-- C6: serialization returns exactly 20 bytes laid out big-endian —
bytes 0-1 source_port, 2-3 dest_port, 4-7 seq_num, 8-11 ack_num, byte 12 the
constant `0x50 = 80`, byte 13 the flags byte, 14-15 window_size, 16-17
checksum, and bytes 18-19 zero — for every field valuation in range. -/
theorem to_bytes_layout (h : Tcp) (hw : h.wellFormed) :
    Tcp.to_bytes h =
      [h.source_port / 256, h.source_port % 256,
       h.dest_port / 256, h.dest_port % 256,
       h.seq_num / 16777216, h.seq_num / 65536 % 256, h.seq_num / 256 % 256, h.seq_num % 256,
       h.ack_num / 16777216, h.ack_num / 65536 % 256, h.ack_num / 256 % 256, h.ack_num % 256,
       80, h.flags,
       h.window_size / 256, h.window_size % 256,
       h.checksum / 256, h.checksum % 256,
       0, 0] ∧
    (Tcp.to_bytes h).length = 20 := by
  obtain ⟨sp, dp, sq, ak, fl, ws, ck⟩ := h
  obtain ⟨h1, h2, h3, h4, h5, h6, h7⟩ := hw
  simp only at h1 h2 h3 h4 h5 h6 h7
  refine ⟨?_, by simp [Tcp.to_bytes, u16be, u32be]⟩
  simp [Tcp.to_bytes, u16be, u32be, List.cons.injEq]
  omega

/-- Witness for C6 at the sample header from the repository's tests. -/
theorem to_bytes_layout_witness :
    Tcp.wellFormed
      { source_port := 49320, dest_port := 8080, seq_num := 305419896,
        ack_num := 2271560481, flags := 18, window_size := 255, checksum := 61453 } ∧
    (Tcp.to_bytes
      { source_port := 49320, dest_port := 8080, seq_num := 305419896,
        ack_num := 2271560481, flags := 18, window_size := 255, checksum := 61453 } =
      [192, 168, 31, 144, 18, 52, 86, 120, 135, 101, 67, 33, 80, 18, 0, 255, 240, 13, 0, 0] ∧
     (Tcp.to_bytes
      { source_port := 49320, dest_port := 8080, seq_num := 305419896,
        ack_num := 2271560481, flags := 18, window_size := 255, checksum := 61453 }).length = 20) :=
  ⟨by decide, to_bytes_layout _ (by decide)⟩

set_option maxRecDepth 100000 in
/-- C7: for every flags byte, the Display rendering lists exactly the names
of the set bits in the fixed order FIN, SYN, RST, PSH, ACK, URG, ECE, CWR
joined by `" | "` and followed by the numeric value, and renders the sentinel
`"UNINT"` followed by the numeric value exactly when no bit is set (i.e. the
byte is zero); the output depends only on the flags byte. -/
theorem flags_render_canonical (b : Nat) (hb : b < 256) :
    TcpFlags.render b =
      (if setFlagNames b = [] then "UNINT " ++ toString b
       else String.intercalate " | " (setFlagNames b) ++ " " ++ toString b) ∧
    (setFlagNames b = [] ↔ b = 0) := by
  revert hb
  revert b
  decide

/-- Witness for C7 at the flags byte `0x12 = 18` (SYN | ACK). -/
theorem flags_render_canonical_witness :
    (18 : Nat) < 256 ∧
    (TcpFlags.render 18 =
      (if setFlagNames 18 = [] then "UNINT " ++ toString (18 : Nat)
       else String.intercalate " | " (setFlagNames 18) ++ " " ++ toString (18 : Nat)) ∧
     (setFlagNames 18 = [] ↔ (18 : Nat) = 0)) :=
  ⟨by norm_num, flags_render_canonical 18 (by norm_num)⟩

/-- C8: for every sequence of builder setter calls and every pair of
addresses and payload, `build` returns a header whose first six fields equal
the accumulated builder configuration (starting from the defaults: ports 0,
seq/ack 0, flags empty, window size 1024) and whose checksum is the checksum
engine's result over the provisional header with checksum 0, the two
addresses and the payload. -/
theorem builder_build_spec :
    (∀ (calls : List BuilderCall) (src dst : Ipv4Addr) (payload : List Nat),
      TcpBuilder.build (applyCalls calls) src dst payload =
        { source_port := (applyCalls calls).source_port
          dest_port := (applyCalls calls).dest_port
          seq_num := (applyCalls calls).seq_num
          ack_num := (applyCalls calls).ack_num
          flags := (applyCalls calls).flags
          window_size := (applyCalls calls).window_size
          checksum := Tcp.calculate_checksum
            { source_port := (applyCalls calls).source_port
              dest_port := (applyCalls calls).dest_port
              seq_num := (applyCalls calls).seq_num
              ack_num := (applyCalls calls).ack_num
              flags := (applyCalls calls).flags
              window_size := (applyCalls calls).window_size
              checksum := 0 } src dst payload }) ∧
    TcpBuilder.new =
      { source_port := 0, dest_port := 0, seq_num := 0, ack_num := 0
        flags := TcpFlags.UNINT, window_size := 1024 } :=
  ⟨fun _ _ _ _ => rfl, rfl⟩

/-- C9: the carry-folding loop terminates for every input: whenever the loop
guard `sum >> 16 > 0` holds, one iteration `(sum & 0xFFFF) + (sum >> 16)`
strictly decreases the sum, so `foldCarry` is total (it is defined by
well-founded recursion on exactly this measure), and its result always fits
in 16 bits before the final complement. -/
theorem carry_fold_total (s : Nat) :
    (0 < s / 65536 → s % 65536 + s / 65536 < s) ∧ foldCarry s < 65536 :=
  ⟨by omega, foldCarry_lt s⟩

/-- Witness for C9 at `2^31`. -/
theorem carry_fold_total_witness :
    0 < 2147483648 / 65536 ∧
    2147483648 % 65536 + 2147483648 / 65536 < 2147483648 ∧
    foldCarry 2147483648 < 65536 :=
  ⟨by norm_num, (carry_fold_total 2147483648).1 (by norm_num),
   (carry_fold_total 2147483648).2⟩

/-- C10: the two codec variants agree.  For every byte slice of length at
least 20 (with a valid flags byte), `TcpHeader::from_bytes` succeeds and
decodes field-for-field the same values as `Tcp::try_from` — both read the
flags byte from offset 13 — and headers with equal fields serialize to
byte-for-byte identical buffers. -/
theorem codecs_agree :
    (∀ bytes : List Nat, 20 ≤ bytes.length → bytes.getD 13 0 < 256 →
      (TcpHeader.from_bytes bytes).isSome = true ∧
      (TcpHeader.from_bytes bytes).map TcpHeader.toTcp = (Tcp.try_from bytes).toOption) ∧
    (∀ (t : Tcp) (ht : TcpHeader), TcpHeader.toTcp ht = t →
      Tcp.to_bytes t = TcpHeader.to_bytes ht) := by
  constructor
  · intro bytes hlen h13
    have hnot : ¬ bytes.length < 20 := by omega
    have hfl : bytes.getD 13 0 &&& 255 = bytes.getD 13 0 := and_255_of_lt _ h13
    simp only [List.getD, List.get?_eq_getElem?] at hfl
    constructor
    · rw [TcpHeader.from_bytes]
      simp [hnot]
    · rw [TcpHeader.from_bytes, Tcp.try_from]
      simp [hnot, TcpFlags.from_bits, hfl, DecodeResult.toOption, TcpHeader.toTcp]
  · intro t ht hEq
    subst hEq
    rfl

/-- Witness for C10 at the known vector and a concrete field valuation. -/
theorem codecs_agree_witness :
    (20 ≤ knownVector.length ∧ knownVector.getD 13 0 < 256 ∧
     (TcpHeader.from_bytes knownVector).isSome = true ∧
     (TcpHeader.from_bytes knownVector).map TcpHeader.toTcp =
       (Tcp.try_from knownVector).toOption) ∧
    (TcpHeader.toTcp ⟨1, 2, 3, 4, 5, 6, 7⟩ = ⟨1, 2, 3, 4, 5, 6, 7⟩ ∧
     Tcp.to_bytes ⟨1, 2, 3, 4, 5, 6, 7⟩ = TcpHeader.to_bytes ⟨1, 2, 3, 4, 5, 6, 7⟩) :=
  ⟨⟨by decide, by decide, (codecs_agree.1 knownVector (by decide) (by decide)).1,
    (codecs_agree.1 knownVector (by decide) (by decide)).2⟩,
   ⟨rfl, codecs_agree.2 _ _ rfl⟩⟩

end Harbinger
